import Mathlib

/-!
Verification of the Smart Rental Tracking System's demand-forecasting and
anomaly-detection engine (`ml/smart_ml_system.py`, `ml/fastapi_ml_service.py`).

The Python source is shallowly embedded: pandas float arithmetic on the
values the claims range over is modelled with exact rationals, calendar
dates with integer day numbers since 1970-01-01 (proleptic Gregorian, as
Python's `datetime`/`pandas.Timestamp`), and the fitted sklearn regressors,
scaler and label encoders — opaque learned artifacts — as function
parameters in an `MLEnv` record.  `fillna` after a pandas division is
modelled by a branch on a zero denominator, which is exact for the
non-negative hour values in scope (0/0 is the only non-finite case there).
-/

namespace SmartRental

/-! ## Calendar arithmetic

`pandas.Timestamp` / `datetime` attributes used by the engine, on a day
number `d` counted from 1970-01-01. -/

/-- Python `date.weekday()` (Monday = 0 … Sunday = 6); day 0 (1970-01-01)
was a Thursday. -/
def pyWeekday (d : ℤ) : ℤ := (d + 3) % 7

/-- Month (1..12) of epoch day `d` in the proleptic Gregorian calendar
(standard civil-from-days integer algorithm). -/
def monthOfDay (d : ℤ) : ℤ :=
  let z := d + 719468
  let era := Int.ediv z 146097
  let doe := z - era * 146097
  let yoe := Int.ediv (doe - Int.ediv doe 1460 + Int.ediv doe 36524 - Int.ediv doe 146096) 365
  let doy := doe - (365 * yoe + Int.ediv yoe 4 - Int.ediv yoe 100)
  let mp := Int.ediv (5 * doy + 2) 153
  mp + (if mp < 10 then 3 else -9)

/-- `pandas.Timestamp.quarter` of a month. -/
def quarterOfMonth (m : ℤ) : ℤ := Int.ediv (m - 1) 3 + 1

/-- Seasonal factor by month, as assigned in `_preprocess_data`,
`_add_calculated_columns_to_db_data` and `_prepare_forecast_features`:
summer (6,7,8) 1.3, winter (12,1,2) 0.7, spring (3,4,5) 1.1, else 1.0. -/
def seasonalFactorOfMonth (m : ℤ) : ℚ :=
  if m = 6 ∨ m = 7 ∨ m = 8 then 13/10
  else if m = 12 ∨ m = 1 ∨ m = 2 then 7/10
  else if m = 3 ∨ m = 4 ∨ m = 5 then 11/10
  else 1

/-! ## Utilization / efficiency formulas

Three distinct code sites compute `utilization_ratio` and
`efficiency_score`. -/

/-- Training-path utilization from `_preprocess_data`:
`np.where(total_hours > 0, engine / total_hours, 0)`. -/
def trainUtilization (engine idle : ℚ) : ℚ :=
  if engine + idle > 0 then engine / (engine + idle) else 0

/-- Training-path efficiency from `_preprocess_data`:
`(engine * 0.6 + (24 - idle) * 0.4) / 24`. -/
def trainEfficiency (engine idle : ℚ) : ℚ :=
  (engine * (6/10) + (24 - idle) * (4/10)) / 24

/-- Anomaly-path utilization from `detect_anomalies`:
`engine / (engine + idle)` followed by `.fillna(0.5)`; for non-negative
hours the division is NaN exactly when the denominator is 0. -/
def liveUtilization (engine idle : ℚ) : ℚ :=
  if engine + idle = 0 then 1/2 else engine / (engine + idle)

/-- Anomaly-path efficiency from `detect_anomalies`: the raw (unfilled)
utilization times `engine / 8.0`, then `.fillna(0.5)`; NaN propagates from
the 0/0 utilization, so the whole product is filled with 0.5 there. -/
def liveEfficiency (engine idle : ℚ) : ℚ :=
  if engine + idle = 0 then 1/2 else (engine / (engine + idle)) * (engine / 8)

/-- Snapshot-preparation utilization from `_add_calculated_columns_to_db_data`:
same formula and fill as the anomaly path. -/
def dbUtilization (engine idle : ℚ) : ℚ :=
  if engine + idle = 0 then 1/2 else engine / (engine + idle)

/-- Snapshot-preparation efficiency from `_add_calculated_columns_to_db_data`:
here the 0.5 fill is applied to utilization *before* the product is formed,
so at a zero denominator the result is `0.5 * (0/8) = 0`, not 0.5. -/
def dbEfficiency (engine idle : ℚ) : ℚ :=
  dbUtilization engine idle * (engine / 8)

/-! ## Anomaly scorer (`detect_anomalies`) -/

/-- A live (currently checked-out) equipment row, as produced by the SQL
query in `_load_database_data`: `site_id` is COALESCEd to `"UNASSIGNED"`,
and the hour columns are coerced to numbers with `.fillna(0.0)`, so they
are never null here. -/
structure LiveRecord where
  equipmentId : String
  equipmentType : String
  siteId : String
  engineHours : ℚ
  idleHours : ℚ
deriving DecidableEq, Repr

/-- One reported anomaly, mirroring the dict appended in `detect_anomalies`. -/
structure AnomalyRecord where
  equipmentId : String
  equipmentType : String
  alertType : String
  severity : String
  siteId : String
  engineHours : ℚ
  idleHours : ℚ
  utilization : ℚ
  efficiency : ℚ
deriving DecidableEq, Repr

/-- The per-row rule loop of `detect_anomalies`: the three rules are
evaluated independently in order, each match appends its alert type and
overwrites the running severity (initialised to `"medium"`); a record is
reported iff some rule matched, with `alert_type = anomaly_types[0]` and
the last-written severity. -/
def classifyRecord (r : LiveRecord) : Option AnomalyRecord :=
  let util := liveUtilization r.engineHours r.idleHours
  let eff := liveEfficiency r.engineHours r.idleHours
  let sev0 := "medium"
  let st1 := if util < 35/100 then (["low_utilization"], "medium") else (([] : List String), sev0)
  let st2 := if r.idleHours > 6 then (st1.1 ++ ["high_idle_time"], "high") else st1
  let st3 := if r.engineHours = 0 ∧ r.idleHours > 0 then (st2.1 ++ ["no_usage"], "high") else st2
  match st3.1 with
  | [] => none
  | t :: _ =>
      some { equipmentId := r.equipmentId, equipmentType := r.equipmentType,
             alertType := t, severity := st3.2, siteId := r.siteId,
             engineHours := r.engineHours, idleHours := r.idleHours,
             utilization := util, efficiency := eff }

/-- Summary block of `detect_anomalies`. -/
structure AnomalySummary where
  totalAnomalies : ℕ
  totalRecords : ℕ
  activeRentals : ℕ
  anomalyRate : ℚ
  equipmentAffected : ℕ
  sitesAffected : ℕ
deriving DecidableEq, Repr

/-- Result of `detect_anomalies`. -/
structure AnomalyResult where
  anomalies : List AnomalyRecord
  summary : AnomalySummary
deriving DecidableEq, Repr

/-- `SmartMLSystem.detect_anomalies`: gate on `models_trained`, require a
non-empty live snapshot, optionally filter to one equipment id, classify
each row by the ordered rules, and build the summary
(`anomaly_rate = anomalies / active_rentals * 100`, 0 when no active
rentals; affected counts are distinct-value counts, sites excluding
`"UNASSIGNED"`). -/
def detect_anomalies (trained : Bool) (totalEquipment : ℕ)
    (dbData : List LiveRecord) (equipmentId : Option String) :
    Except String AnomalyResult :=
  if trained = false then .error "Models not trained"
  else if dbData.length = 0 then
    .error "No database data available for anomaly detection"
  else
    let equipmentData : List LiveRecord :=
      match equipmentId with
      | some eid => dbData.filter (fun r => r.equipmentId = eid)
      | none => dbData
    if equipmentId.isSome ∧ equipmentData.length = 0 then
      .error ("Equipment " ++ equipmentId.getD "" ++ " not found in database")
    else if equipmentData.length = 0 then
      .error "No valid data for anomaly detection"
    else
      let anomalies := equipmentData.filterMap classifyRecord
      let activeRentalCount := equipmentData.length
      .ok { anomalies := anomalies,
            summary :=
              { totalAnomalies := anomalies.length,
                totalRecords := totalEquipment,
                activeRentals := activeRentalCount,
                anomalyRate :=
                  if activeRentalCount > 0 then
                    (anomalies.length : ℚ) / (activeRentalCount : ℚ) * 100
                  else 0,
                equipmentAffected := (anomalies.map (fun a => a.equipmentId)).dedup.length,
                sitesAffected :=
                  ((anomalies.filter (fun a => a.siteId ≠ "UNASSIGNED")).map
                    (fun a => a.siteId)).dedup.length } }

end SmartRental


namespace SmartRental

/-! ## Training gate (`_train_models`) -/

/-- A training-data row reduced to what `_train_models` inspects: the
values of the 14 feature columns, `none` marking a NaN that
`dropna(subset=feature_columns)` would remove. -/
structure TrainRow where
  features : List (Option ℚ)
deriving DecidableEq, Repr

/-- Row kept by `clean_data = self.data.dropna(subset=feature_columns)`. -/
def isCleanRow (r : TrainRow) : Bool := r.features.all (fun v => v.isSome)

/-- `_train_models`' resulting `models_trained` flag, starting from the
untrained state `__init__` sets up: skip (leaving `false`) when the raw
data has fewer than 50 rows or the clean data fewer than 30; otherwise the
flag is `true` unless the fitting pipeline raises (`fitSucceeds = false`,
the `except` branch that sets `models_trained = False`). -/
def trainModels (data : List TrainRow) (fitSucceeds : Bool) : Bool :=
  if data.length < 50 then false
  else if (data.filter isCleanRow).length < 30 then false
  else fitSucceeds

/-! ## Feature columns (`_train_models` / `_train_site_specific_models`) -/

/-- The ordered 14-column global feature list of `_train_models`, which is
also the order `_prepare_forecast_features` emits. -/
def featureColumns : List String :=
  ["equipment_type_encoded", "site_encoded", "month", "day_of_week",
   "quarter", "is_weekend", "seasonal_factor", "site_equipment_count",
   "site_avg_utilization", "equipment_site_popularity", "demand_7d_avg",
   "demand_30d_avg", "rental_duration", "utilization_ratio"]

/-- The ordered 8-column feature list each per-site model is fitted on in
`_train_site_specific_models`. -/
def siteFeatureColumns : List String :=
  ["equipment_type_encoded", "month", "day_of_week", "quarter",
   "is_weekend", "seasonal_factor", "demand_7d_avg", "demand_30d_avg"]

/-! ## Forecasting (`forecast_demand` and helpers) -/

/-- A context row of the data frame `forecast_demand` works on (live
snapshot after `_add_calculated_columns_to_db_data`, or the preprocessed
training data on fallback); only the columns the forecast path reads. -/
structure ContextRow where
  eqType : String
  siteId : String
  checkOutDate : ℤ
  siteEquipmentCount : ℚ
  siteAvgUtilization : ℚ
  equipmentSitePopularity : ℚ
  demand7dAvg : ℚ
  demand30dAvg : ℚ
  rentalDuration : ℚ
  utilizationRatio : ℚ
deriving DecidableEq, Repr

/-- The opaque fitted artifacts a trained `SmartMLSystem` holds: the list
of sites having a per-site model (`site_specific_models` keys), the
per-site and global regressors' prediction functions, the fitted
`StandardScaler.transform`, and the two fitted label encoders. -/
structure MLEnv where
  siteModels : List String
  sitePredict : String → List ℚ → ℚ
  globalPredict : List ℚ → ℚ
  scale : List ℚ → List ℚ
  encodeType : String → ℤ
  encodeSite : String → ℤ

/-- `pandas.Series.mean` on a non-empty column. -/
def listMeanQ (l : List ℚ) : ℚ := l.sum / (l.length : ℚ)

/-- `_prepare_forecast_features`: the 14-entry feature vector for one
future date: encoders applied to the given type/site (0 when absent),
calendar features of the date, and context-derived values — first row for
site aggregates and popularity, last row for the rolling demand averages,
column means for rental duration and utilization, with fixed defaults on
an empty context. -/
def prepareForecastFeatures (env : MLEnv) (equipmentType siteId : Option String)
    (futureDate : ℤ) (filtered : List ContextRow) : List ℚ :=
  let equipmentEncoded : ℚ :=
    match equipmentType with
    | some t => (env.encodeType t : ℚ)
    | none => 0
  let siteEncoded : ℚ :=
    match siteId with
    | some s => (env.encodeSite s : ℚ)
    | none => 0
  let month := monthOfDay futureDate
  let dayOfWeek := pyWeekday futureDate
  let quarter := quarterOfMonth month
  let isWeekend : ℚ := if dayOfWeek = 5 ∨ dayOfWeek = 6 then 1 else 0
  let seasonal := seasonalFactorOfMonth month
  let siteEquipmentCount : ℚ :=
    match filtered with
    | [] => 0
    | r :: _ => r.siteEquipmentCount
  let siteAvgUtilization : ℚ :=
    match filtered with
    | [] => 1/2
    | r :: _ => r.siteAvgUtilization
  let equipmentSitePopularity : ℚ :=
    match filtered with
    | [] => 1
    | r :: _ => r.equipmentSitePopularity
  let demand7dAvg : ℚ :=
    match filtered.getLast? with
    | none => 0
    | some r => r.demand7dAvg
  let demand30dAvg : ℚ :=
    match filtered.getLast? with
    | none => 0
    | some r => r.demand30dAvg
  let rentalDuration : ℚ :=
    if filtered.length > 0 then listMeanQ (filtered.map (fun r => r.rentalDuration)) else 30
  let utilizationRatio : ℚ :=
    if filtered.length > 0 then listMeanQ (filtered.map (fun r => r.utilizationRatio)) else 1/2
  [equipmentEncoded, siteEncoded, (month : ℚ), (dayOfWeek : ℚ), (quarter : ℚ),
   isWeekend, seasonal, siteEquipmentCount, siteAvgUtilization,
   equipmentSitePopularity, demand7dAvg, demand30dAvg, rentalDuration,
   utilizationRatio]

/-- The model-selection test of `forecast_demand`:
`if site_id and site_id in self.site_specific_models and equipment_type`. -/
def usesSiteModel (siteModels : List String) (equipmentType siteId : Option String) : Bool :=
  match siteId, equipmentType with
  | some s, some _ => siteModels.contains s
  | _, _ => false

/-- The demand cap of `_apply_realistic_constraints` before any scaling:
start from 20, tighten to `2 × site rows` for a given non-"UNASSIGNED"
site with at least one row, then to `1.5 × type rows` for a given type
with at least one row. -/
def demandCap (filtered : List ContextRow) (equipmentType siteId : Option String) : ℚ :=
  let maxD0 : ℚ := 20
  let maxD1 : ℚ :=
    match siteId with
    | some s =>
        if s ≠ "UNASSIGNED" then
          let siteEquipment := filtered.filter (fun r => r.siteId = s)
          if siteEquipment.length > 0 then min maxD0 ((siteEquipment.length : ℚ) * 2)
          else maxD0
        else maxD0
    | none => maxD0
  match equipmentType with
  | some t =>
      let equipmentData := filtered.filter (fun r => r.eqType = t)
      if equipmentData.length > 0 then min maxD1 ((equipmentData.length : ℚ) * (3/2))
      else maxD1
  | none => maxD1

/-- The weekend (×0.6) and winter (×0.8) adjustments of
`_apply_realistic_constraints`, in that order. -/
def scaleAdjust (futureDate : ℤ) (pred : ℚ) : ℚ :=
  let p1 := if pyWeekday futureDate ≥ 5 then pred * (6/10) else pred
  if monthOfDay futureDate = 12 ∨ monthOfDay futureDate = 1 ∨ monthOfDay futureDate = 2 then
    p1 * (8/10)
  else p1

/-- `_apply_realistic_constraints`, translated statement by statement:
compute the cap, scale the raw prediction by the weekend and winter
factors, then clamp with `max(min_demand, min(max_demand, ...))`. -/
def applyRealisticConstraints (predictedDemand : ℚ) (futureDate : ℤ)
    (filtered : List ContextRow) (equipmentType siteId : Option String) : ℚ :=
  let minDemand : ℚ := 0
  let maxDemand : ℚ := 20
  let maxDemand1 : ℚ :=
    match siteId with
    | some s =>
        if s ≠ "UNASSIGNED" then
          let siteEquipment := filtered.filter (fun r => r.siteId = s)
          if siteEquipment.length > 0 then min maxDemand ((siteEquipment.length : ℚ) * 2)
          else maxDemand
        else maxDemand
    | none => maxDemand
  let maxDemand2 : ℚ :=
    match equipmentType with
    | some t =>
        let equipmentData := filtered.filter (fun r => r.eqType = t)
        if equipmentData.length > 0 then min maxDemand1 ((equipmentData.length : ℚ) * (3/2))
        else maxDemand1
    | none => maxDemand1
  let pred1 := if pyWeekday futureDate ≥ 5 then predictedDemand * (6/10) else predictedDemand
  let pred2 :=
    if monthOfDay futureDate = 12 ∨ monthOfDay futureDate = 1 ∨ monthOfDay futureDate = 2 then
      pred1 * (8/10)
    else pred1
  max minDemand (min maxDemand2 pred2)

/-- `_calculate_forecast_confidence`'s last-known checkout date
(`filtered_data['Check-Out Date'].max()`); the forecast path only reaches
it with a non-empty frame of valid dates. -/
def maxCheckOutDate (l : List ContextRow) : ℤ :=
  l.foldl (fun acc r => max acc r.checkOutDate)
    (match l with
     | [] => 0
     | r :: _ => r.checkOutDate)

/-- `_calculate_forecast_confidence`: base 0.7 times a data-volume factor,
a site factor (only for a given non-"UNASSIGNED" site), an equipment-type
factor, and a temporal-decay factor, clamped into [0.3, 0.95] by
`min(0.95, max(0.3, confidence))`. -/
def calculateForecastConfidence (filtered : List ContextRow)
    (equipmentType siteId : Option String) (futureDate : ℤ) : ℚ :=
  let baseConfidence : ℚ := 7/10
  let dataPoints := filtered.length
  let dataFactor : ℚ :=
    if dataPoints ≥ 100 then 1
    else if dataPoints ≥ 50 then 9/10
    else if dataPoints ≥ 20 then 8/10
    else 6/10
  let siteFactor : ℚ :=
    match siteId with
    | some s =>
        if s ≠ "UNASSIGNED" then
          let siteData := filtered.filter (fun r => r.siteId = s)
          if siteData.length ≥ 10 then 1
          else if siteData.length ≥ 5 then 9/10
          else 7/10
        else 1
    | none => 1
  let equipmentFactor : ℚ :=
    match equipmentType with
    | some t =>
        let equipmentData := filtered.filter (fun r => r.eqType = t)
        if equipmentData.length ≥ 20 then 1
        else if equipmentData.length ≥ 10 then 9/10
        else 8/10
    | none => 1
  let daysFromLast : ℤ := futureDate - maxCheckOutDate filtered
  let timeFactor : ℚ := max (1/2) (1 - (daysFromLast : ℚ) * (1/100))
  let confidence := baseConfidence * dataFactor * siteFactor * equipmentFactor * timeFactor
  min (95/100) (max (3/10) confidence)

/-- Python 3 `round` on an exact rational: round half to even. -/
def roundQ (x : ℚ) : ℤ :=
  let f := Int.floor x
  let r := x - (f : ℚ)
  if r < 1/2 then f
  else if r > 1/2 then f + 1
  else if f % 2 = 0 then f else f + 1

/-- Python `round(x, n)` on an exact rational. -/
def pyRound (x : ℚ) (n : ℕ) : ℚ := (roundQ (x * 10 ^ n) : ℚ) / 10 ^ n

/-- One entry of the `forecasts` list. -/
structure ForecastPoint where
  date : ℤ
  predictedDemand : ℚ
  confidence : ℚ
deriving DecidableEq, Repr

/-- One iteration of `forecast_demand`'s per-day loop: build the feature
vector, predict with the site-specific model on `features[:8]` when
selected and with the global model on the scaled full vector otherwise,
apply the realistic constraints, and emit the rounded point. -/
def forecastOnePoint (env : MLEnv) (equipmentType siteId : Option String)
    (filtered : List ContextRow) (futureDate : ℤ) : ForecastPoint :=
  let features := prepareForecastFeatures env equipmentType siteId futureDate filtered
  let raw : ℚ :=
    if usesSiteModel env.siteModels equipmentType siteId then
      env.sitePredict (siteId.getD "") (features.take 8)
    else
      env.globalPredict (env.scale features)
  let constrained := applyRealisticConstraints raw futureDate filtered equipmentType siteId
  { date := futureDate,
    predictedDemand := pyRound (max 0 constrained) 1,
    confidence := pyRound (calculateForecastConfidence filtered equipmentType siteId futureDate) 2 }

/-- The filtering `forecast_demand` applies to its data frame: by equipment
type when given, then by site when given and not `"UNASSIGNED"`. -/
def filteredContext (dbData : List ContextRow) (equipmentType siteId : Option String) :
    List ContextRow :=
  let f1 : List ContextRow :=
    match equipmentType with
    | some t => dbData.filter (fun r => r.eqType = t)
    | none => dbData
  match siteId with
  | some s => if s = "UNASSIGNED" then f1 else f1.filter (fun r => r.siteId = s)
  | none => f1

/-- Result of `forecast_demand` (the fields the specified properties
concern). -/
structure ForecastResult where
  forecastDays : ℕ
  forecasts : List ForecastPoint
  totalPredictedDemand : ℚ
  averageDailyDemand : ℚ
deriving DecidableEq, Repr

/-- `SmartMLSystem.forecast_demand`: gate on `models_trained`, filter the
data, error when nothing matches, take `last_date` as the maximum checkout
date of the filtered frame, forecast the next `daysAhead` consecutive
days, and aggregate.  `daysAhead = 0` reproduces the `ZeroDivisionError`
from `total / days_ahead` that the outer handler turns into an error
result. -/
def forecast_demand (trained : Bool) (env : MLEnv) (dbData : List ContextRow)
    (equipmentType siteId : Option String) (daysAhead : ℕ) :
    Except String ForecastResult :=
  if trained = false then .error "Models not trained"
  else if (filteredContext dbData equipmentType siteId).length = 0 then
    .error "No data found for the specified parameters"
  else if daysAhead = 0 then .error "Error forecasting demand: division by zero"
  else
    let filtered := filteredContext dbData equipmentType siteId
    let lastDate := maxCheckOutDate filtered
    let futureDates := (List.range daysAhead).map (fun i : ℕ => lastDate + 1 + (i : ℤ))
    let points := futureDates.map (forecastOnePoint env equipmentType siteId filtered)
    let total := (points.map (fun p => p.predictedDemand)).sum
    .ok { forecastDays := daysAhead,
            forecasts := points,
            totalPredictedDemand := pyRound total 1,
            averageDailyDemand := pyRound (total / (daysAhead : ℚ)) 1 }

/-! ## Service lifecycle (`fastapi_ml_service.on_database_change`) -/

/-- Where a `SmartMLSystem()` (re)construction can fail.
`constructorRaises`: an exception escapes `__init__` itself (e.g. from
`_preprocess_data`).  `trainRaises`: an exception inside `_train_models`'
`try` block, caught there, leaving `models_trained = False` on the new
instance.  `trainSucceeds`: the full pipeline runs and sets
`models_trained = True`. -/
inductive RetrainOutcome where
  | constructorRaises
  | trainRaises
  | trainSucceeds
deriving DecidableEq, Repr

/-- The service-visible state of one `SmartMLSystem` instance: its
`models_trained` flag, with `bankId` standing for the identity of the
concrete fitted artifacts (global model, per-site models, encoders,
scaler) the instance owns. -/
structure MLService where
  modelsTrained : Bool
  bankId : ℕ
deriving DecidableEq, Repr

/-- `SmartMLSystem.__init__` as a fallible construction: an escaping
exception yields no instance; otherwise a fresh instance whose flag
records whether training completed. -/
def smartMLSystemInit (outcome : RetrainOutcome) (freshBank : ℕ) :
    Except String MLService :=
  match outcome with
  | .constructorRaises => .error "init failed"
  | .trainRaises => .ok { modelsTrained := false, bankId := freshBank }
  | .trainSucceeds => .ok { modelsTrained := true, bankId := freshBank }

/-- `on_database_change`: rebuild `ml_system = SmartMLSystem()` inside a
`try`; only an exception escaping the constructor leaves the previous
global instance in place. -/
def onDatabaseChange (current : MLService) (outcome : RetrainOutcome)
    (freshBank : ℕ) : MLService :=
  match smartMLSystemInit outcome freshBank with
  | .ok s => s
  | .error _ => current

end SmartRental

namespace SmartRental

/-! ## Concrete fixtures for witnesses and counterexamples -/

/-- Live snapshot row with zero engine hours and 5 idle hours (the spec
scenario's first equipment). -/
def eq1 : LiveRecord :=
  { equipmentId := "EQ1001", equipmentType := "Excavator", siteId := "S001",
    engineHours := 0, idleHours := 5 }

/-- Live snapshot row with 8 idle hours and utilization 0.5 (the spec
scenario's second equipment). -/
def eq2 : LiveRecord :=
  { equipmentId := "EQ1002", equipmentType := "Bulldozer", siteId := "S002",
    engineHours := 8, idleHours := 8 }

/-- Live snapshot row with utilization 0.2 and 2 idle hours (the spec
scenario's third equipment). -/
def eq3 : LiveRecord :=
  { equipmentId := "EQ1003", equipmentType := "Crane", siteId := "S003",
    engineHours := 1/2, idleHours := 2 }

/-- The anomaly record `detect_anomalies` produces for `eq1`. -/
def anom1 : AnomalyRecord :=
  { equipmentId := "EQ1001", equipmentType := "Excavator",
    alertType := "low_utilization", severity := "high", siteId := "S001",
    engineHours := 0, idleHours := 5, utilization := 0, efficiency := 0 }

/-- A trivial trained-artifact environment (constant regressors, identity
scaler, constant encoders, no per-site models). -/
def env0 : MLEnv :=
  { siteModels := [], sitePredict := fun _ _ => 0, globalPredict := fun _ => 1,
    scale := fun l => l, encodeType := fun _ => 0, encodeSite := fun _ => 0 }

/-- An environment whose site encoder is the constant 7 and which has a
per-site model for `"S001"`. -/
def env1 : MLEnv :=
  { siteModels := ["S001"], sitePredict := fun _ _ => 2, globalPredict := fun _ => 1,
    scale := fun l => l, encodeType := fun _ => 4, encodeSite := fun _ => 7 }

/-- A one-row forecast context (checkout on epoch day 19889 = 2024-06-15). -/
def ctx0 : List ContextRow :=
  [{ eqType := "Excavator", siteId := "S001", checkOutDate := 19889,
     siteEquipmentCount := 1, siteAvgUtilization := 1/2,
     equipmentSitePopularity := 1, demand7dAvg := 2, demand30dAvg := 8,
     rentalDuration := 30, utilizationRatio := 1/2 }]

/-- A 20-row training dataset (below the 50-row minimum). -/
def smallTrainData : List TrainRow := List.replicate 20 { features := [] }

end SmartRental

namespace SmartRental



/-- The anomaly record `detect_anomalies` produces for `eq2`. -/
def anom2 : AnomalyRecord :=
  { equipmentId := "EQ1002", equipmentType := "Bulldozer",
    alertType := "high_idle_time", severity := "high", siteId := "S002",
    engineHours := 8, idleHours := 8, utilization := 1/2, efficiency := 1/2 }

/-- The anomaly record `detect_anomalies` produces for `eq3`. -/
def anom3 : AnomalyRecord :=
  { equipmentId := "EQ1003", equipmentType := "Crane",
    alertType := "low_utilization", severity := "medium", siteId := "S003",
    engineHours := 1/2, idleHours := 2, utilization := 1/5, efficiency := 1/80 }

theorem classify_eq1 : classifyRecord eq1 = some anom1 := by
  norm_num [classifyRecord, liveUtilization, liveEfficiency, eq1, anom1]

theorem classify_eq2 : classifyRecord eq2 = some anom2 := by
  norm_num [classifyRecord, liveUtilization, liveEfficiency, eq2, anom2]

theorem classify_eq3 : classifyRecord eq3 = some anom3 := by
  norm_num [classifyRecord, liveUtilization, liveEfficiency, eq3, anom3]

/-- C1 counterexample: on the spec's 3-equipment snapshot the first
record (engine 0, idle 5) has utilization 0 < 0.35, so the first matching
rule is rule 1 and its reported `alert_type` is `"low_utilization"`, not
the claimed `"no_usage"`. -/
theorem C1_counterexample :
    (detect_anomalies true 151 [eq1, eq2, eq3] none).toOption.map
        (fun res => res.anomalies.map (fun a => a.alertType)) =
      some ["low_utilization", "high_idle_time", "low_utilization"] ∧
    ("low_utilization" : String) ≠ "no_usage" := by
  constructor
  · simp [detect_anomalies, Except.toOption, List.filterMap_cons,
      classify_eq1, classify_eq2, classify_eq3, anom1, anom2, anom3]
  · decide


/-- C1 (amended): every reported `alert_type` is the first matching rule
in the fixed order (1) utilization < 0.35 → `"low_utilization"`,
(2) idle > 6 → `"high_idle_time"`, (3) engine = 0 and idle > 0 →
`"no_usage"`; on the 3-equipment snapshot (engine 0 / idle 5, idle 8,
utilization 0.2 / idle 2) exactly 3 anomalies are reported, classified
`"low_utilization"`/`"high"`, `"high_idle_time"`/`"high"` and
`"low_utilization"`/`"medium"` respectively. -/
theorem C1_first_match_order :
    (∀ r a, classifyRecord r = some a →
        a.alertType =
          (if liveUtilization r.engineHours r.idleHours < 35/100 then "low_utilization"
           else if r.idleHours > 6 then "high_idle_time"
           else "no_usage")) ∧
    (detect_anomalies true 151 [eq1, eq2, eq3] none).toOption.map
        (fun res => res.anomalies.map (fun a => (a.alertType, a.severity))) =
      some [("low_utilization", "high"), ("high_idle_time", "high"),
            ("low_utilization", "medium")] := by
  constructor
  · intro r a h
    by_cases h3 : r.engineHours = 0 ∧ r.idleHours > 0
    · obtain ⟨he, hi⟩ := h3
      by_cases h1 : liveUtilization r.engineHours r.idleHours < 35/100 <;>
        by_cases h2 : r.idleHours > 6 <;>
          rw [he] at h1 <;>
            simp only [classifyRecord, he, hi, h1, h2, if_true, if_false,
              and_self, gt_iff_lt, if_pos, if_neg, not_false_iff, ite_true,
              ite_false, List.nil_append, List.cons_append] at h <;>
              simp only [Option.some.injEq] at h <;>
                subst h <;>
                  simp [he, h1, h2]
    · by_cases h1 : liveUtilization r.engineHours r.idleHours < 35/100 <;>
        by_cases h2 : r.idleHours > 6 <;>
          simp only [classifyRecord, h1, h2, h3, if_true, if_false, ite_true,
            ite_false, List.nil_append, List.cons_append] at h <;>
            first
              | (simp only [Option.some.injEq] at h ; subst h ; simp [h1, h2])
              | exact absurd h (by simp)
  · simp [detect_anomalies, Except.toOption, List.filterMap_cons,
      classify_eq1, classify_eq2, classify_eq3, anom1, anom2, anom3]

/-- C1 witness: the rule-order theorem applied to the zero-engine-hours
record, whose first matching rule is rule 1. -/
theorem C1_witness :
    anom1.alertType =
      (if liveUtilization eq1.engineHours eq1.idleHours < 35/100 then "low_utilization"
       else if eq1.idleHours > 6 then "high_idle_time"
       else "no_usage") :=
  C1_first_match_order.1 eq1 anom1 classify_eq1


/-- C10: a reported anomaly's severity is `"high"` exactly when the record
satisfies idle > 6 or (engine = 0 and idle > 0) — the last-evaluated
matching rule decides the severity regardless of which `alert_type` is
reported — and `"medium"` otherwise. -/
theorem C10_severity_last_rule (r : LiveRecord) (a : AnomalyRecord)
    (h : classifyRecord r = some a) :
    (a.severity = "high" ↔ (r.idleHours > 6 ∨ (r.engineHours = 0 ∧ r.idleHours > 0))) ∧
    (a.severity = "high" ∨ a.severity = "medium") := by
  by_cases h3 : r.engineHours = 0 ∧ r.idleHours > 0
  · obtain ⟨he, hi⟩ := h3
    by_cases h1 : liveUtilization r.engineHours r.idleHours < 35/100 <;>
      by_cases h2 : r.idleHours > 6 <;>
        rw [he] at h1 <;>
          simp only [classifyRecord, he, hi, h1, h2, if_true, if_false,
            and_self, gt_iff_lt, ite_true, ite_false, List.nil_append,
            List.cons_append] at h <;>
            simp only [Option.some.injEq] at h <;>
              subst h <;>
                simp [he, hi, h1, h2]
  · by_cases h1 : liveUtilization r.engineHours r.idleHours < 35/100 <;>
      by_cases h2 : r.idleHours > 6 <;>
        simp only [classifyRecord, h1, h2, h3, if_true, if_false, ite_true,
          ite_false, List.nil_append, List.cons_append] at h <;>
          first
            | (simp only [Option.some.injEq] at h ; subst h ; simp [h1, h2, h3])
            | exact absurd h (by simp)

/-- C10 witness: the severity rule applied to the zero-engine-hours
record: its `alert_type` comes from rule 1 but its severity is `"high"`
from rule 3. -/
theorem C10_witness :
    (anom1.severity = "high" ↔
      (eq1.idleHours > 6 ∨ (eq1.engineHours = 0 ∧ eq1.idleHours > 0))) ∧
    (anom1.severity = "high" ∨ anom1.severity = "medium") :=
  C10_severity_last_rule eq1 anom1 classify_eq1


/-- C3 counterexample: the training-time and inference-time formulas are
not the same functions: at (engine, idle) = (6, 2) the training efficiency
is (6·0.6 + 22·0.4)/24 = 31/60 while the inference efficiency is
0.75·(6/8) = 9/16, and at (0, 0) the training utilization is 0 while the
inference one is 0.5. -/
theorem C3_counterexample :
    trainEfficiency 6 2 = 31/60 ∧ liveEfficiency 6 2 = 9/16 ∧
    trainEfficiency 6 2 ≠ liveEfficiency 6 2 ∧
    trainUtilization 0 0 = 0 ∧ liveUtilization 0 0 = 1/2 ∧
    trainUtilization 0 0 ≠ liveUtilization 0 0 := by
  norm_num [trainEfficiency, liveEfficiency, trainUtilization, liveUtilization]

/-- C3 (amended): the two inference paths (anomaly detection and live
snapshot preparation) use identical utilization formulas, and their
efficiency formulas agree away from a zero hour total; but they are not
the training-time formulas: training utilization agrees with inference
only away from a zero total (0 vs 0.5 there), training efficiency
((0.6·engine + 0.4·(24−idle))/24) differs from inference efficiency
(utilization·engine/8) already at (6, 2), and at a zero total the two
inference efficiency values differ from each other (0 vs 0.5) because one
path fills the NaN utilization before the product and the other after. -/
theorem C3_formula_drift :
    (∀ e i : ℚ, liveUtilization e i = dbUtilization e i) ∧
    (∀ e i : ℚ, 0 ≤ e → 0 ≤ i → e + i ≠ 0 →
        trainUtilization e i = liveUtilization e i ∧
        dbEfficiency e i = liveEfficiency e i) ∧
    trainEfficiency 6 2 ≠ liveEfficiency 6 2 ∧
    trainUtilization 0 0 = 0 ∧ liveUtilization 0 0 = 1/2 ∧
    dbEfficiency 0 0 = 0 ∧ liveEfficiency 0 0 = 1/2 := by
  refine ⟨fun e i => rfl, fun e i he hi hne => ?_, ?_, ?_, ?_, ?_, ?_⟩
  · have hpos : 0 < e + i := lt_of_le_of_ne (by positivity) (Ne.symm hne)
    constructor
    · rw [trainUtilization, liveUtilization, if_pos hpos, if_neg hne]
    · rw [dbEfficiency, dbUtilization, liveEfficiency, if_neg hne, if_neg hne]
  · norm_num [trainEfficiency, liveEfficiency]
  · norm_num [trainUtilization]
  · norm_num [liveUtilization]
  · norm_num [dbEfficiency, dbUtilization]
  · norm_num [liveEfficiency]

/-- C3 witness: at (6, 2) the training and inference utilizations agree
and the two inference efficiency formulas agree. -/
theorem C3_witness :
    trainUtilization 6 2 = liveUtilization 6 2 ∧
    dbEfficiency 6 2 = liveEfficiency 6 2 :=
  C3_formula_drift.2.1 6 2 (by norm_num) (by norm_num) (by norm_num)

/-- C4 counterexample: in the live paths a record with
engine_hours + idle_hours = 0 gets utilization 0.5, not 0. -/
theorem C4_counterexample :
    liveUtilization 0 0 = 1/2 ∧ dbUtilization 0 0 = 1/2 ∧
    (1/2 : ℚ) ≠ 0 := by
  norm_num [liveUtilization, dbUtilization]

/-- C4 (amended): for non-negative hours, utilization lies in [0, 1] in
the training path and in both live paths; at engine + idle = 0 the
training path yields exactly 0 but the live paths yield 0.5 (the
`fillna(0.5)` applied to the 0/0 division). -/
theorem C4_utilization_range (e i : ℚ) (he : 0 ≤ e) (hi : 0 ≤ i) :
    (0 ≤ trainUtilization e i ∧ trainUtilization e i ≤ 1) ∧
    (e + i = 0 → trainUtilization e i = 0) ∧
    (0 ≤ liveUtilization e i ∧ liveUtilization e i ≤ 1) ∧
    (0 ≤ dbUtilization e i ∧ dbUtilization e i ≤ 1) ∧
    (e + i = 0 → liveUtilization e i = 1/2 ∧ dbUtilization e i = 1/2) := by
  by_cases hz : e + i = 0
  · simp [trainUtilization, liveUtilization, dbUtilization, hz]
    norm_num
  · have hpos : 0 < e + i := lt_of_le_of_ne (by positivity) (Ne.symm hz)
    have hle : e ≤ e + i := le_add_of_nonneg_right hi
    have h0 : 0 ≤ e / (e + i) := div_nonneg he hpos.le
    have h1 : e / (e + i) ≤ 1 := (div_le_one hpos).mpr hle
    simp only [trainUtilization, liveUtilization, dbUtilization, if_pos hpos,
      if_neg hz]
    exact ⟨⟨h0, h1⟩, fun hc => absurd hc hz, ⟨h0, h1⟩, ⟨h0, h1⟩,
      fun hc => absurd hc hz⟩

/-- C4 witness: the range theorem applied at (3, 1) and the zero case at
(0, 0). -/
theorem C4_witness :
    (0 ≤ trainUtilization 3 1 ∧ trainUtilization 3 1 ≤ 1) ∧
    (liveUtilization 0 0 = 1/2 ∧ dbUtilization 0 0 = 1/2) :=
  ⟨(C4_utilization_range 3 1 (by norm_num) (by norm_num)).1,
   (C4_utilization_range 0 0 le_rfl le_rfl).2.2.2.2 (by norm_num)⟩


/-- C5 counterexample: a retrain whose failure happens inside
`_train_models` (where it is caught, leaving `models_trained = False` on
the freshly built instance) does not leave the previously trained system
serving: `on_database_change` replaces the global instance with the new
untrained one, and subsequent forecast and anomaly requests return the
"Models not trained" error instead of being served from the old models. -/
theorem C5_counterexample :
    onDatabaseChange { modelsTrained := true, bankId := 1 } .trainRaises 2 ≠
      { modelsTrained := true, bankId := 1 } ∧
    (onDatabaseChange { modelsTrained := true, bankId := 1 } .trainRaises 2).modelsTrained
      = false ∧
    forecast_demand
        (onDatabaseChange { modelsTrained := true, bankId := 1 } .trainRaises 2).modelsTrained
        env0 ctx0 none none 5 = .error "Models not trained" ∧
    detect_anomalies
        (onDatabaseChange { modelsTrained := true, bankId := 1 } .trainRaises 2).modelsTrained
        151 [eq1] none = .error "Models not trained" := by
  refine ⟨?_, rfl, rfl, rfl⟩
  intro h
  simpa [onDatabaseChange, smartMLSystemInit] using congrArg MLService.modelsTrained h

/-- C5 (amended): only an exception that escapes the `SmartMLSystem`
constructor leaves the previous instance (its models, encoders, scaler and
trained flag) intact and serving; an exception raised inside
`_train_models` is caught there, so the rebuilt instance — untrained —
replaces the previous one and every subsequent forecast/anomaly request
returns the "Models not trained" error. -/
theorem C5_retrain_isolation (old : MLService) (fresh : ℕ) :
    onDatabaseChange old .constructorRaises fresh = old ∧
    onDatabaseChange old .trainSucceeds fresh =
      { modelsTrained := true, bankId := fresh } ∧
    onDatabaseChange old .trainRaises fresh =
      { modelsTrained := false, bankId := fresh } ∧
    (∀ env db t s N,
        forecast_demand (onDatabaseChange old .trainRaises fresh).modelsTrained
          env db t s N = .error "Models not trained") ∧
    (∀ tot db eqid,
        detect_anomalies (onDatabaseChange old .trainRaises fresh).modelsTrained
          tot db eqid = .error "Models not trained") :=
  ⟨rfl, rfl, rfl, fun _ _ _ _ _ => rfl, fun _ _ _ => rfl⟩

/-- C6: with fewer than 50 raw rows, or fewer than 30 rows surviving the
null-feature drop, training is skipped and the bank stays untrained, and
every subsequent forecast and anomaly call returns the explicit
"Models not trained" error rather than a numeric result. -/
theorem C6_insufficient_data (data : List TrainRow) (fit : Bool)
    (h : data.length < 50 ∨ (data.filter isCleanRow).length < 30) :
    trainModels data fit = false ∧
    (∀ env db t s N,
        forecast_demand (trainModels data fit) env db t s N =
          .error "Models not trained") ∧
    (∀ tot db eqid,
        detect_anomalies (trainModels data fit) tot db eqid =
          .error "Models not trained") := by
  have hf : trainModels data fit = false := by
    rw [trainModels]
    rcases h with h | h
    · rw [if_pos h]
    · by_cases h50 : data.length < 50
      · rw [if_pos h50]
      · rw [if_neg h50, if_pos h]
  refine ⟨hf, ?_, ?_⟩
  · intro env db t s N
    rw [hf]
    rfl
  · intro tot db eqid
    rw [hf]
    rfl

/-- C6 witness: a 20-row dataset is below the 50-row minimum, so the bank
is untrained and a forecast call errors. -/
theorem C6_witness :
    trainModels smallTrainData true = false ∧
    forecast_demand (trainModels smallTrainData true) env0 ctx0 none none 30 =
      .error "Models not trained" := by
  have h := C6_insufficient_data smallTrainData true (Or.inl (by decide))
  exact ⟨h.1, h.2.1 env0 ctx0 none none 30⟩


/-- C7: the constrained prediction is non-negative; it is literally the
clamp `max 0 (min cap scaled)` where the cap is computed before the
weekend/winter scaling is applied to the raw prediction (scale → clamp);
and whenever both scopes are known (a given type and a given
non-"UNASSIGNED" site, each matching at least one context row) it is
bounded by `min(20, 1.5 × type rows, 2 × site rows)`. -/
theorem C7_constraint_bounds (pred : ℚ) (d : ℤ) (filtered : List ContextRow)
    (equipmentType siteId : Option String) :
    0 ≤ applyRealisticConstraints pred d filtered equipmentType siteId ∧
    applyRealisticConstraints pred d filtered equipmentType siteId =
      max 0 (min (demandCap filtered equipmentType siteId) (scaleAdjust d pred)) ∧
    (∀ t s, equipmentType = some t → siteId = some s → s ≠ "UNASSIGNED" →
        0 < (filtered.filter (fun r => r.siteId = s)).length →
        0 < (filtered.filter (fun r => r.eqType = t)).length →
        applyRealisticConstraints pred d filtered equipmentType siteId ≤
          min 20 (min (((filtered.filter (fun r => r.eqType = t)).length : ℚ) * (3/2))
            (((filtered.filter (fun r => r.siteId = s)).length : ℚ) * 2))) := by
  refine ⟨le_max_left 0 _, rfl, ?_⟩
  intro t s ht hs hsU hslen htlen
  subst ht
  subst hs
  have hcap : demandCap filtered (some t) (some s) =
      min (min 20 (((filtered.filter (fun r => r.siteId = s)).length : ℚ) * 2))
        (((filtered.filter (fun r => r.eqType = t)).length : ℚ) * (3/2)) := by
    rw [demandCap]
    simp only [hsU, if_pos hslen, if_pos htlen, ite_true, ne_eq,
      not_false_iff]
  have hr : applyRealisticConstraints pred d filtered (some t) (some s) =
      max 0 (min (demandCap filtered (some t) (some s)) (scaleAdjust d pred)) := rfl
  rw [hr, hcap]
  have h20 : min (min 20 (((filtered.filter (fun r => r.siteId = s)).length : ℚ) * 2))
      (((filtered.filter (fun r => r.eqType = t)).length : ℚ) * (3/2)) ≤ 20 :=
    le_trans (min_le_left _ _) (min_le_left _ _)
  have hty : min (min 20 (((filtered.filter (fun r => r.siteId = s)).length : ℚ) * 2))
      (((filtered.filter (fun r => r.eqType = t)).length : ℚ) * (3/2)) ≤
        ((filtered.filter (fun r => r.eqType = t)).length : ℚ) * (3/2) :=
    min_le_right _ _
  have hsi : min (min 20 (((filtered.filter (fun r => r.siteId = s)).length : ℚ) * 2))
      (((filtered.filter (fun r => r.eqType = t)).length : ℚ) * (3/2)) ≤
        ((filtered.filter (fun r => r.siteId = s)).length : ℚ) * 2 :=
    le_trans (min_le_left _ _) (min_le_right _ _)
  refine max_le ?_ ?_
  · refine le_min (by norm_num) (le_min ?_ ?_) <;> positivity
  · exact le_trans (min_le_left _ _) (le_min h20 (le_min hty hsi))

/-- C7 witness: the bound applied at a concrete prediction 100 on the
one-row context, where the caps are 1.5 and 2. -/
theorem C7_witness :
    applyRealisticConstraints 100 19889 ctx0 (some "Excavator") (some "S001") ≤
      min 20 (min (((ctx0.filter (fun r => r.eqType = "Excavator")).length : ℚ) * (3/2))
        (((ctx0.filter (fun r => r.siteId = "S001")).length : ℚ) * 2)) :=
  (C7_constraint_bounds 100 19889 ctx0 (some "Excavator") (some "S001")).2.2
    "Excavator" "S001" rfl rfl (by decide) (by decide) (by decide)


/-- Round-half-to-even stays between any integer bounds enclosing its
argument. -/
theorem roundQ_mem_Icc (y : ℚ) (a b : ℤ) (ha : (a : ℚ) ≤ y) (hb : y ≤ (b : ℚ)) :
    a ≤ roundQ y ∧ roundQ y ≤ b := by
  have hfa : a ≤ Int.floor y := Int.le_floor.mpr ha
  have hfb : Int.floor y ≤ b := by
    have := Int.floor_le_floor hb
    simpa using this
  have hfl : (Int.floor y : ℚ) ≤ y := Int.floor_le y
  constructor
  · rw [roundQ]
    split_ifs with h1 h2 h3
    · exact hfa
    · exact le_trans hfa (by omega)
    · exact hfa
    · exact le_trans hfa (by omega)
  · rw [roundQ]
    split_ifs with h1 h2 h3
    · exact hfb
    · -- the fractional part exceeds 1/2, so the floor is strictly below b
      have hstrict : (Int.floor y : ℚ) + 1/2 < (b : ℚ) := by
        have : (Int.floor y : ℚ) + 1/2 < y := by linarith
        linarith
      have : Int.floor y < b := by
        by_contra hc
        push_neg at hc
        have : (b : ℚ) ≤ (Int.floor y : ℚ) := by exact_mod_cast hc
        linarith
      omega
    · exact hfb
    · -- exact tie: y = floor + 1/2 < b since b is an integer bound
      have hy : y = (Int.floor y : ℚ) + 1/2 := by linarith
      have : (Int.floor y : ℚ) + 1/2 ≤ (b : ℚ) := by linarith
      have : Int.floor y < b := by
        by_contra hc
        push_neg at hc
        have : (b : ℚ) ≤ (Int.floor y : ℚ) := by exact_mod_cast hc
        linarith
      omega

/-- C9: every forecast point's confidence is the 2-decimal rounding of
`_calculate_forecast_confidence`, and that value always lies in
[0.3, 0.95], for every context (including an empty one), optional type and
site, and future date. -/
theorem C9_confidence_range (env : MLEnv) (filtered : List ContextRow)
    (equipmentType siteId : Option String) (d : ℤ) :
    (forecastOnePoint env equipmentType siteId filtered d).confidence =
      pyRound (calculateForecastConfidence filtered equipmentType siteId d) 2 ∧
    3/10 ≤ (forecastOnePoint env equipmentType siteId filtered d).confidence ∧
    (forecastOnePoint env equipmentType siteId filtered d).confidence ≤ 95/100 := by
  have hkey : ∃ c : ℚ, calculateForecastConfidence filtered equipmentType siteId d =
      min (95/100) (max (3/10) c) := ⟨_, rfl⟩
  obtain ⟨c, hcc⟩ := hkey
  have hc1 : 3/10 ≤ calculateForecastConfidence filtered equipmentType siteId d := by
    rw [hcc]
    exact le_min (by norm_num) (le_max_left _ _)
  have hc2 : calculateForecastConfidence filtered equipmentType siteId d ≤ 95/100 := by
    rw [hcc]
    exact min_le_left _ _
  have hlo : ((30 : ℤ) : ℚ) ≤ calculateForecastConfidence filtered equipmentType siteId d * 10 ^ 2 := by
    push_cast
    nlinarith
  have hhi : calculateForecastConfidence filtered equipmentType siteId d * 10 ^ 2 ≤ ((95 : ℤ) : ℚ) := by
    push_cast
    nlinarith
  have hr := roundQ_mem_Icc
    (calculateForecastConfidence filtered equipmentType siteId d * 10 ^ 2) 30 95 hlo hhi
  have hq1 : (30 : ℚ) ≤
      (roundQ (calculateForecastConfidence filtered equipmentType siteId d * 10 ^ 2) : ℚ) := by
    exact_mod_cast hr.1
  have hq2 : (roundQ (calculateForecastConfidence filtered equipmentType siteId d * 10 ^ 2) : ℚ) ≤ 95 := by
    exact_mod_cast hr.2
  have hconf : (forecastOnePoint env equipmentType siteId filtered d).confidence =
      (roundQ (calculateForecastConfidence filtered equipmentType siteId d * 10 ^ 2) : ℚ) / 10 ^ 2 := rfl
  refine ⟨rfl, ?_, ?_⟩
  · rw [hconf, le_div_iff₀ (by norm_num : (0:ℚ) < 10 ^ 2)]
    norm_num at hq1 hq2 ⊢
    linarith
  · rw [hconf, div_le_iff₀ (by norm_num : (0:ℚ) < 10 ^ 2)]
    norm_num at hq1 hq2 ⊢
    linarith


/-- C8: whenever `forecast_demand` succeeds with horizon `N`, the result
holds exactly `N` forecast points, whose dates are the consecutive
calendar days starting the day after the latest checkout date of the
(filtered) data used. -/
theorem C8_forecast_horizon (trained : Bool) (env : MLEnv) (db : List ContextRow)
    (equipmentType siteId : Option String) (N : ℕ) (res : ForecastResult)
    (h : forecast_demand trained env db equipmentType siteId N = .ok res) :
    res.forecasts.length = N ∧
    ∀ i (hi : i < res.forecasts.length),
      (res.forecasts.get ⟨i, hi⟩).date =
        maxCheckOutDate (filteredContext db equipmentType siteId) + 1 + (i : ℤ) := by
  rw [forecast_demand] at h
  split_ifs at h with h1 h2 h3
  simp only [Except.ok.injEq] at h
  subst h
  constructor
  · simp
  · intro i hi
    simp only [List.get_eq_getElem, List.getElem_map, List.getElem_range]
    rfl

/-- Concrete two-day forecast produced by the trivial environment on the
one-row context, used to witness the horizon theorem. -/
def c8res : ForecastResult :=
  (forecast_demand true env0 ctx0 none none 2).toOption.getD
    { forecastDays := 0, forecasts := [], totalPredictedDemand := 0,
      averageDailyDemand := 0 }

theorem c8res_spec : forecast_demand true env0 ctx0 none none 2 = .ok c8res := rfl

/-- C8 witness: the horizon theorem applied to a concrete successful
two-day forecast. -/
theorem C8_witness : c8res.forecasts.length = 2 :=
  (C8_forecast_horizon true env0 ctx0 none none 2 c8res c8res_spec).1


/-- C2: the selection rule is as specified — the per-site model is used
exactly when a site is given, it has a trained per-site model, and an
equipment type is given, the global model otherwise — but the 8 values
passed to the per-site model are `features[:8]` of the 14-feature global
vector: (type code, site code, month, day_of_week, quarter, is_weekend,
seasonal_factor, site_equipment_count), not the 8 columns the per-site
model was trained on (type code, month, day_of_week, quarter, is_weekend,
seasonal_factor, demand_7d_avg, demand_30d_avg): position 1 carries the
encoded site (7 here) where the trained model expects the month (6 here),
and the rolling-demand features are dropped entirely. -/
theorem C2_site_model_features :
    (∀ siteModels : List String, ∀ t s : String,
        usesSiteModel siteModels (some t) (some s) = siteModels.contains s ∧
        usesSiteModel siteModels none (some s) = false ∧
        usesSiteModel siteModels (some t) none = false ∧
        usesSiteModel siteModels none none = false) ∧
    featureColumns.take 8 ≠ siteFeatureColumns ∧
    featureColumns.take 8 =
      ["equipment_type_encoded", "site_encoded", "month", "day_of_week",
       "quarter", "is_weekend", "seasonal_factor", "site_equipment_count"] ∧
    ((prepareForecastFeatures env1 (some "Excavator") (some "S001") 19889 ctx0).take 8).get?
        1 = some 7 ∧
    (monthOfDay 19889 : ℚ) = 6 ∧ (7 : ℚ) ≠ 6 := by
  refine ⟨fun siteModels t s => ⟨rfl, rfl, rfl, rfl⟩, by decide, by decide, ?_, ?_, by norm_num⟩
  · norm_num [prepareForecastFeatures, env1, ctx0]
  · norm_num [monthOfDay]

end SmartRental
